import Mathlib

/-!
Verification of the `rust_container_system` value model, container and codec
layer against its specification.

Embedding conventions:
* machine integers become `Nat` (unsigned) or `Int` (signed); byte encodings
  apply the relevant `% 2^w` truncation explicitly,
* `Vec<u8>` becomes `List Nat` (entries are below 256 by construction),
* fallible Rust functions returning `Result` become `Except ContainerErr`,
* functions that can hit an unchecked slice index or array index additionally
  get an explicit `panicked` outcome (`RustOutcome`),
* `serde_json::Value` trees become the `Json` inductive; the string layer of
  serde_json (printing and reparsing a tree) is a bijection on the trees used
  here and is not re-modelled,
* `Arc<dyn Value>` pointer identity is modelled by an explicit `ptr : Nat`
  field on stored values (`VArc`); distinct live allocations have distinct
  pointers, cloned `Arc`s share one,
* the floating point kinds (`FloatValue`, `DoubleValue`) are outside this
  integer embedding: for serialization-layout facts their stored IEEE-754
  bit pattern is abstracted as bytes, and parser branches that would have to
  construct a float from a JSON number are marked unmodelled and are never
  exercised by any theorem.
-/

set_option maxRecDepth 100000

/-- Little-endian 2-byte encoding, as produced by `u16::to_le_bytes` /
`i16::to_le_bytes` on the two's-complement bit pattern. -/
def le16 (n : Nat) : List Nat := [n % 256, n / 256 % 256]

/-- Little-endian 4-byte encoding (`u32::to_le_bytes`). Bits above 2^32 are
discarded, matching the `as u32` truncation semantics. -/
def le32 (n : Nat) : List Nat :=
  [n % 256, n / 256 % 256, n / 65536 % 256, n / 16777216 % 256]

/-- Little-endian 8-byte encoding (`u64::to_le_bytes`). -/
def le64 (n : Nat) : List Nat :=
  [n % 256, n / 256 % 256, n / 65536 % 256, n / 16777216 % 256,
   n / 4294967296 % 256, n / 1099511627776 % 256,
   n / 281474976710656 % 256, n / 72057594037927936 % 256]

/-- Two's-complement bit pattern of an `i16` as a natural number. -/
def i16Pattern (v : Int) : Nat := (v % 65536).toNat

/-- Two's-complement bit pattern of an `i32` as a natural number. -/
def i32Pattern (v : Int) : Nat := (v % 4294967296).toNat

/-- Two's-complement bit pattern of an `i64` as a natural number. -/
def i64Pattern (v : Int) : Nat := (v % 18446744073709551616).toNat

/-- `i16::to_le_bytes`. -/
def i16Bytes (v : Int) : List Nat := le16 (i16Pattern v)

/-- `i32::to_le_bytes`. -/
def i32Bytes (v : Int) : List Nat := le32 (i32Pattern v)

/-- `i64::to_le_bytes`. -/
def i64Bytes (v : Int) : List Nat := le64 (i64Pattern v)

/-- Value of a little-endian byte list (`u32::from_le_bytes` and friends). -/
def leVal (bs : List Nat) : Nat := bs.foldr (fun b acc => b % 256 + 256 * acc) 0

/-- Reinterpret an unsigned `w`-bit pattern as a signed integer
(two's complement), as `iN::from_le_bytes` does with the assembled bits. -/
def signedOfPattern (w : Nat) (n : Nat) : Int :=
  if n < 2 ^ (w - 1) then (n : Int) else (n : Int) - (2 ^ w : Nat)

/-- Rust `as iN` cast: truncate to `w` bits and reinterpret as signed. -/
def intCast (w : Nat) (x : Int) : Int := signedOfPattern w (x % (2 ^ w : Nat)).toNat

/-- UTF-8 encoding of one scalar value (RFC 3629); `str::as_bytes` per char. -/
def utf8Char (c : Char) : List Nat :=
  let n := c.toNat
  if n < 128 then [n]
  else if n < 2048 then [192 + n / 64, 128 + n % 64]
  else if n < 65536 then [224 + n / 4096, 128 + n / 64 % 64, 128 + n % 64]
  else [240 + n / 262144, 128 + n / 4096 % 64, 128 + n / 64 % 64, 128 + n % 64]

/-- UTF-8 bytes of a string (`String::as_bytes` / `String::into_bytes`). -/
def utf8 (s : String) : List Nat := s.data.flatMap utf8Char

/-- UTF-8 decoding helper: strict validation as in `String::from_utf8`
(rejects bad continuation bytes, overlong forms, surrogates, out-of-range). -/
def utf8DecodeAux : List Nat → Option (List Char)
  | [] => some []
  | b :: rest =>
    if b < 128 then
      (utf8DecodeAux rest).map (fun cs => Char.ofNat b :: cs)
    else if b < 194 then none
    else if b < 224 then
      match rest with
      | b1 :: rest2 =>
        if 128 ≤ b1 ∧ b1 < 192 then
          (utf8DecodeAux rest2).map (fun cs => Char.ofNat ((b - 192) * 64 + (b1 - 128)) :: cs)
        else none
      | [] => none
    else if b < 240 then
      match rest with
      | b1 :: b2 :: rest2 =>
        let n := (b - 224) * 4096 + (b1 - 128) * 64 + (b2 - 128)
        if 128 ≤ b1 ∧ b1 < 192 ∧ 128 ≤ b2 ∧ b2 < 192 ∧ 2048 ≤ n ∧
            ¬ (55296 ≤ n ∧ n < 57344) then
          (utf8DecodeAux rest2).map (fun cs => Char.ofNat n :: cs)
        else none
      | _ => none
    else if b < 245 then
      match rest with
      | b1 :: b2 :: b3 :: rest2 =>
        let n := (b - 240) * 262144 + (b1 - 128) * 4096 + (b2 - 128) * 64 + (b3 - 128)
        if 128 ≤ b1 ∧ b1 < 192 ∧ 128 ≤ b2 ∧ b2 < 192 ∧ 128 ≤ b3 ∧ b3 < 192 ∧
            65536 ≤ n ∧ n < 1114112 then
          (utf8DecodeAux rest2).map (fun cs => Char.ofNat n :: cs)
        else none
      | _ => none
    else none

/-- `String::from_utf8` at tree level: `some` on valid UTF-8, `none` on the
`FromUtf8Error` path. -/
def utf8Decode (bs : List Nat) : Option String := (utf8DecodeAux bs).map List.asString

/-- One lowercase hex digit, as produced by the `{:02x}` formatter. -/
def hexDigit (n : Nat) : Char :=
  if n < 10 then Char.ofNat (48 + n) else Char.ofNat (87 + n)

/-- Lowercase two-digit hex of one byte (`format!("\x7b:02x\x7d", b)`). -/
def byteToHexChars (b : Nat) : List Char := [hexDigit (b / 16), hexDigit (b % 16)]

/-- `wire_protocol::bytes_to_hex`: lowercase hex pairs, concatenated. -/
def bytesToHex (bs : List Nat) : String := (bs.flatMap byteToHexChars).asString

example : bytesToHex [72, 101, 108, 108, 111] = "48656c6c6f" := by decide

/-- One character of the standard base64 alphabet. -/
def b64Char (n : Nat) : Char :=
  if n < 26 then Char.ofNat (65 + n)
  else if n < 52 then Char.ofNat (97 + (n - 26))
  else if n < 62 then Char.ofNat (48 + (n - 52))
  else if n = 62 then Char.ofNat 43 else Char.ofNat 47

/-- Standard base64 encoding with padding
(`base64::engine::general_purpose::STANDARD.encode`). -/
def base64EncodeChars : List Nat → List Char
  | [] => []
  | [a] => [b64Char (a % 256 / 4), b64Char (a % 4 * 16), Char.ofNat 61, Char.ofNat 61]
  | [a, b] => [b64Char (a % 256 / 4), b64Char (a % 4 * 16 + b % 256 / 16),
               b64Char (b % 16 * 4), Char.ofNat 61]
  | a :: b :: c :: rest =>
      [b64Char (a % 256 / 4), b64Char (a % 4 * 16 + b % 256 / 16),
       b64Char (b % 16 * 4 + c % 256 / 64), b64Char (c % 64)] ++ base64EncodeChars rest

/-- `BASE64.encode` over a byte list, producing a string. -/
def base64Encode (bs : List Nat) : String := (base64EncodeChars bs).asString

example : base64Encode [72, 101, 108, 108, 111] = "SGVsbG8=" := by decide

/-- Value of one base64 alphabet character, `none` outside the alphabet. -/
def b64Val (c : Char) : Option Nat :=
  let n := c.toNat
  if 65 ≤ n ∧ n ≤ 90 then some (n - 65)
  else if 97 ≤ n ∧ n ≤ 122 then some (n - 97 + 26)
  else if 48 ≤ n ∧ n ≤ 57 then some (n - 48 + 52)
  else if n = 43 then some 62
  else if n = 47 then some 63
  else none

/-- Strict base64 decoding with canonical padding
(`BASE64.decode`): input length must be a multiple of four, characters must
be in the alphabet, and trailing bits under the padding must be zero. -/
def base64DecodeChars : List Char → Option (List Nat)
  | [] => some []
  | a :: b :: c :: d :: rest =>
    match b64Val a, b64Val b with
    | some va, some vb =>
      if c.toNat = 61 ∧ d.toNat = 61 ∧ rest = [] then
        if vb % 16 = 0 then some [va * 4 + vb / 16] else none
      else if d.toNat = 61 ∧ rest = [] then
        match b64Val c with
        | some vc =>
          if vc % 4 = 0 then some [va * 4 + vb / 16, vb % 16 * 16 + vc / 4] else none
        | none => none
      else
        match b64Val c, b64Val d with
        | some vc, some vd =>
          (base64DecodeChars rest).map
            (fun r => (va * 4 + vb / 16) :: (vb % 16 * 16 + vc / 4) :: (vc % 4 * 64 + vd) :: r)
        | _, _ => none
    | _, _ => none
  | _ => none

/-- `BASE64.decode` over a string. -/
def base64Decode (s : String) : Option (List Nat) := base64DecodeChars s.data

example : base64Decode "SGVsbG8=" = some [72, 101, 108, 108, 111] := by decide
example : base64Decode "Alice" = none := by decide

/-- `ContainerError` (core/error.rs), restricted to the variants the claims
exercise. -/
inductive ContainerErr where
  | invalidTypeConversion (src : String) (tgt : String)
  | invalidDataFormat (msg : String)
  | serializationError (msg : String)
deriving DecidableEq, Repr

/-- `ValueType` (core/value_types.rs): the closed 16-member type tag. -/
inductive ValueType where
  | null | bool | short | ushort | int | uint | long | ulong
  | llong | ullong | float | double | bytes | string | container | array
deriving DecidableEq, Repr

/-- The `repr(u8)` discriminants of `ValueType`: note that in this source
`Bytes = 12` and `String = 13` (`ValueType as u8`). -/
def ValueType.code : ValueType → Nat
  | .null => 0 | .bool => 1 | .short => 2 | .ushort => 3
  | .int => 4 | .uint => 5 | .long => 6 | .ulong => 7
  | .llong => 8 | .ullong => 9 | .float => 10 | .double => 11
  | .bytes => 12 | .string => 13 | .container => 14 | .array => 15

/-- `Display for ValueType`: the C++-style names. -/
def ValueType.display : ValueType → String
  | .null => "null_value" | .bool => "bool_value" | .short => "short_value"
  | .ushort => "ushort_value" | .int => "int_value" | .uint => "uint_value"
  | .long => "long_value" | .ulong => "ulong_value" | .llong => "llong_value"
  | .ullong => "ullong_value" | .float => "float_value" | .double => "double_value"
  | .bytes => "bytes_value" | .string => "string_value"
  | .container => "container_value" | .array => "array_value"

/-- `ValueType::from_type_code` (numeric strings "0".."15"). -/
def ValueType.fromTypeCode (s : String) : Option ValueType :=
  if s = "0" then some .null else if s = "1" then some .bool
  else if s = "2" then some .short else if s = "3" then some .ushort
  else if s = "4" then some .int else if s = "5" then some .uint
  else if s = "6" then some .long else if s = "7" then some .ulong
  else if s = "8" then some .llong else if s = "9" then some .ullong
  else if s = "10" then some .float else if s = "11" then some .double
  else if s = "12" then some .bytes else if s = "13" then some .string
  else if s = "14" then some .container else if s = "15" then some .array
  else none

/-- The concrete value kinds (values/*.rs) holding the constructed state:
`LongValue`/`ULongValue` store the checked 32-bit scalar, `LLongValue` /
`ULLongValue` the full 64-bit one. The float kinds are outside this integer
embedding (their serialization layout is treated separately). -/
inductive Val where
  | nullV (name : String)
  | boolV (name : String) (b : Bool)
  | shortV (name : String) (v : Int)
  | ushortV (name : String) (v : Nat)
  | intV (name : String) (v : Int)
  | uintV (name : String) (v : Nat)
  | longV (name : String) (v : Int)
  | ulongV (name : String) (v : Nat)
  | llongV (name : String) (v : Int)
  | ullongV (name : String) (v : Nat)
  | stringV (name : String) (s : String)
  | bytesV (name : String) (data : List Nat)
  | containerV (name : String) (children : List Val)
  | arrayV (name : String) (elems : List Val)

/-- `Value::name`. -/
def Val.name : Val → String
  | .nullV n | .boolV n _ | .shortV n _ | .ushortV n _ | .intV n _ | .uintV n _
  | .longV n _ | .ulongV n _ | .llongV n _ | .ullongV n _
  | .stringV n _ | .bytesV n _ | .containerV n _ | .arrayV n _ => n

/-- `Value::value_type` per concrete kind. -/
def Val.valueType : Val → ValueType
  | .nullV _ => .null
  | .boolV _ _ => .bool
  | .shortV _ _ => .short
  | .ushortV _ _ => .ushort
  | .intV _ _ => .int
  | .uintV _ _ => .uint
  | .longV _ _ => .long
  | .ulongV _ _ => .ulong
  | .llongV _ _ => .llong
  | .ullongV _ _ => .ullong
  | .stringV _ _ => .string
  | .bytesV _ _ => .bytes
  | .containerV _ _ => .container
  | .arrayV _ _ => .array

/-- `LongValue::new`: enforces the signed 32-bit range via `i32::try_from`. -/
def LongValue.new (name : String) (value : Int) : Except ContainerErr Val :=
  if -2147483648 ≤ value ∧ value ≤ 2147483647 then .ok (.longV name value)
  else
    .error (.invalidTypeConversion ("i64(" ++ toString value ++ ")")
      "i32 (long_value, type 6)")

/-- `ULongValue::new`: enforces the unsigned 32-bit range via `u32::try_from`. -/
def ULongValue.new (name : String) (value : Nat) : Except ContainerErr Val :=
  if value ≤ 4294967295 then .ok (.ulongV name value)
  else
    .error (.invalidTypeConversion ("u64(" ++ toString value ++ ")")
      "u32 (ulong_value, type 7)")

/-- `LLongValue::new`: accepts the full 64-bit signed range, unchecked. -/
def LLongValue.new (name : String) (value : Int) : Val := .llongV name value

/-- Default conversion failure of the `Value` trait. -/
def convErr (v : Val) (tgt : String) : ContainerErr :=
  .invalidTypeConversion (v.valueType.display) tgt

/-- `Value::to_bool`: only `BoolValue` overrides the failing default
(`ContainerValue` overrides it with an explicit error of its own). -/
def Val.toBool : Val → Except ContainerErr Bool
  | .boolV _ b => .ok b
  | .containerV _ _ => .error (.invalidTypeConversion "container" "bool")
  | v => .error (convErr v "bool")

/-- `Value::to_short`: no concrete kind overrides the failing default
(`ContainerValue` supplies its own explicit error). -/
def Val.toShort (v : Val) : Except ContainerErr Int :=
  match v with
  | .containerV _ _ => .error (.invalidTypeConversion "container" "i16")
  | _ => .error (convErr v "i16")

/-- `Value::to_ushort`: no concrete kind overrides the failing default. -/
def Val.toUshort (v : Val) : Except ContainerErr Nat :=
  match v with
  | .containerV _ _ => .error (.invalidTypeConversion "container" "u16")
  | _ => .error (convErr v "u16")

/-- `Value::to_int` with the per-kind overrides of the sources. -/
def Val.toInt : Val → Except ContainerErr Int
  | .shortV _ v => .ok v
  | .ushortV _ v => .ok v
  | .intV _ v => .ok v
  | .uintV _ v =>
      if v ≤ 2147483647 then .ok v else .error (.invalidTypeConversion "u32" "i32")
  | .longV _ v => .ok v
  | .llongV _ v =>
      if -2147483648 ≤ v ∧ v ≤ 2147483647 then .ok v
      else .error (.invalidTypeConversion "i64" "i32")
  | .ulongV _ v =>
      if v ≤ 2147483647 then .ok v else .error (.invalidTypeConversion "u32" "i32")
  | .ullongV _ v =>
      if v ≤ 2147483647 then .ok v else .error (.invalidTypeConversion "u64" "i32")
  | .containerV _ _ => .error (.invalidTypeConversion "container" "i32")
  | v => .error (convErr v "i32")

/-- `Value::to_uint`: no concrete kind overrides the failing default. -/
def Val.toUint (v : Val) : Except ContainerErr Nat :=
  match v with
  | .containerV _ _ => .error (.invalidTypeConversion "container" "u32")
  | _ => .error (convErr v "u32")

/-- `Value::to_long` with the per-kind overrides of the sources;
`ContainerValue::to_long` returns the child count. -/
def Val.toLong : Val → Except ContainerErr Int
  | .shortV _ v => .ok v
  | .ushortV _ v => .ok v
  | .intV _ v => .ok v
  | .uintV _ v => .ok v
  | .longV _ v => .ok v
  | .ulongV _ v => .ok v
  | .llongV _ v => .ok v
  | .ullongV _ v =>
      if v ≤ 9223372036854775807 then .ok v
      else .error (.invalidTypeConversion "u64" "i64")
  | .containerV _ children => .ok children.length
  | v => .error (convErr v "i64")

/-- `Value::to_ulong`: only `ContainerValue` overrides the failing default
(with its child count). -/
def Val.toUlong (v : Val) : Except ContainerErr Nat :=
  match v with
  | .containerV _ children => .ok children.length
  | _ => .error (convErr v "u64")

mutual
/-- `Value::to_string` for the kinds of this embedding (`i32`/`u32`/... display
is decimal, `BytesValue` renders a placeholder, `ContainerValue` a summary,
`ArrayValue::serialize_text` a header followed by rendered elements). -/
def Val.toDisplayString : Val → String
  | .nullV _ => "null"
  | .boolV _ b => if b then "true" else "false"
  | .shortV _ v => toString v
  | .ushortV _ v => toString v
  | .intV _ v => toString v
  | .uintV _ v => toString v
  | .longV _ v => toString v
  | .ulongV _ v => toString v
  | .llongV _ v => toString v
  | .ullongV _ v => toString v
  | .stringV _ s => s
  | .bytesV _ data => "<" ++ toString data.length ++ " bytes>"
  | .containerV name children =>
      "[Container '" ++ name ++ "' with " ++ toString children.length ++ " children]"
  | .arrayV name elems =>
      "[" ++ name ++ ",15," ++ toString elems.length ++ "];" ++
      Val.displayStringConcat elems

/-- Concatenation of the rendered elements (the serializer's `for` loop). -/
def Val.displayStringConcat : List Val → String
  | [] => ""
  | v :: rest => Val.toDisplayString v ++ Val.displayStringConcat rest
end

mutual
/-- `Value::to_bytes` per concrete kind, byte for byte.  `Bool`, `Int`, `Long`,
`String`, `Bytes` and `Null` emit the full tagged record
`[type][name_len LE][name][payload_size LE][payload]`; `Short`, `UShort`,
`UInt`, `ULong`, `LLong` and `ULLong` emit only the raw little-endian payload
(`self.value.to_le_bytes().to_vec()`); `ContainerValue` emits its child count
as an `i64`; `ArrayValue` emits a count followed by the element records. -/
def Val.toBytes : Val → List Nat
  | .nullV name =>
      [0] ++ le32 (utf8 name).length ++ utf8 name ++ le32 0
  | .boolV name b =>
      [1] ++ le32 (utf8 name).length ++ utf8 name ++ le32 1 ++ [if b then 1 else 0]
  | .shortV _ v => i16Bytes v
  | .ushortV _ v => le16 v
  | .intV name v =>
      [4] ++ le32 (utf8 name).length ++ utf8 name ++ le32 4 ++ i32Bytes v
  | .uintV _ v => le32 v
  | .longV name v =>
      [6] ++ le32 (utf8 name).length ++ utf8 name ++ le32 4 ++ i32Bytes v
  | .ulongV _ v => le32 v
  | .llongV _ v => i64Bytes v
  | .ullongV _ v => le64 v
  | .stringV name s =>
      [13] ++ le32 (utf8 name).length ++ utf8 name ++ le32 (utf8 s).length ++ utf8 s
  | .bytesV name data =>
      [12] ++ le32 (utf8 name).length ++ utf8 name ++ le32 data.length ++ data
  | .containerV _ children => i64Bytes children.length
  | .arrayV _ elems => le32 elems.length ++ Val.toBytesConcat elems

/-- Concatenation of the element records (the serializer's `for` loop). -/
def Val.toBytesConcat : List Val → List Nat
  | [] => []
  | v :: rest => Val.toBytes v ++ Val.toBytesConcat rest
end

/-- `FloatValue::to_bytes` with the stored `f32` abstracted by its IEEE-754
bit pattern `bits` (the payload is `f32::to_le_bytes`, i.e. `le32 bits`). -/
def floatValueToBytes (name : String) (bits : Nat) : List Nat :=
  [10] ++ le32 (utf8 name).length ++ utf8 name ++ le32 4 ++ le32 bits

/-- `DoubleValue::to_bytes` with the stored `f64` abstracted by its IEEE-754
bit pattern `bits`. -/
def doubleValueToBytes (name : String) (bits : Nat) : List Nat :=
  [11] ++ le32 (utf8 name).length ++ utf8 name ++ le32 8 ++ le64 bits

/-- The per-value wire layout of spec section 4.3:
`[type:1][name_len:4 LE][name:UTF-8][payload_size:4 LE][payload]`. -/
def wireLayout (tag : Nat) (name : String) (payload : List Nat) : List Nat :=
  [tag] ++ le32 (utf8 name).length ++ utf8 name ++ le32 payload.length ++ payload

/-- A stored `Arc<dyn Value>`: the value plus its allocation address.  Two
live `Arc`s obtained from separate `Arc::new` calls have distinct `ptr`;
clones of one `Arc` share it.  Either way a pointer determines the value it
points to -- theorems that rely on this carry it as a hypothesis. -/
structure VArc where
  ptr : Nat
  val : Val

/-- Name of a stored value (`value.name()`). -/
def VArc.name (a : VArc) : String := a.val.name

/-- `DEFAULT_MAX_VALUES` (container.rs). -/
def DEFAULT_MAX_VALUES : Nat := 10000

/-- `ABSOLUTE_MAX_VALUES` (container.rs). -/
def ABSOLUTE_MAX_VALUES : Nat := 100000

/-- `ContainerInner` behind the `Arc<RwLock<..>>`: header fields, the
insertion-ordered sequence, the name index, and the capacity ceiling.
The `HashMap<String, Vec<Arc<dyn Value>>>` is modelled as an association
list with unique keys (hash iteration order is never observed here). -/
structure Container where
  source_id : String
  source_sub_id : String
  target_id : String
  target_sub_id : String
  message_type : String
  version : String
  values : List VArc
  valueMap : List (String × List VArc)
  maxValues : Nat

/-- `HashMap::get` on the name index. -/
def mapGet (m : List (String × List VArc)) (name : String) : Option (List VArc) :=
  match m with
  | [] => none
  | (k, vs) :: rest => if k = name then some vs else mapGet rest name

/-- Lookup defaulting to the empty bucket (for stating the index invariant). -/
def mapGetList (m : List (String × List VArc)) (name : String) : List VArc :=
  (mapGet m name).getD []

/-- `value_map.entry(name).or_default().push(value)`. -/
def mapPush (m : List (String × List VArc)) (name : String) (v : VArc) :
    List (String × List VArc) :=
  match m with
  | [] => [(name, [v])]
  | (k, vs) :: rest =>
    if k = name then (k, vs ++ [v]) :: rest else (k, vs) :: mapPush rest name v

/-- `HashMap::remove(name)` drops the key's entry (keys are unique in a
`HashMap`, so dropping every matching entry of the association list is the
same operation; the removed bucket is read separately with `mapGet`). -/
def mapRemoveKey (m : List (String × List VArc)) (name : String) :
    List (String × List VArc) :=
  m.filter (fun kv => !(kv.1 == name))

/-- `ValueContainer::new`. -/
def Container.new : Container :=
  { source_id := "", source_sub_id := "", target_id := "", target_sub_id := "",
    message_type := "data_container", version := "1.0.0.0",
    values := [], valueMap := [], maxValues := DEFAULT_MAX_VALUES }

/-- `ValueContainer::with_max_values`: the requested ceiling is capped at
`ABSOLUTE_MAX_VALUES`. -/
def Container.withMaxValues (m : Nat) : Container :=
  { Container.new with maxValues := min m ABSOLUTE_MAX_VALUES }

/-- `ValueContainer::set_source`. -/
def Container.setSource (c : Container) (id sub : String) : Container :=
  { c with source_id := id, source_sub_id := sub }

/-- `ValueContainer::set_target`. -/
def Container.setTarget (c : Container) (id sub : String) : Container :=
  { c with target_id := id, target_sub_id := sub }

/-- `ValueContainer::set_message_type`. -/
def Container.setMessageType (c : Container) (mt : String) : Container :=
  { c with message_type := mt }

/-- `ValueContainer::swap_header`: exchanges the source and target id/sub-id
pairs by take-and-swap on the four routing fields. -/
def Container.swapHeader (c : Container) : Container :=
  { c with source_id := c.target_id, target_id := c.source_id,
           source_sub_id := c.target_sub_id, target_sub_id := c.source_sub_id }

/-- `ValueContainer::add_value`: fails without mutating once
`values.len() >= max_values`, otherwise appends to the sequence and pushes
into the name bucket. -/
def Container.addValue (c : Container) (v : VArc) : Except ContainerErr Container :=
  if c.values.length ≥ c.maxValues then
    .error (.invalidDataFormat
      ("Container value limit reached (" ++ toString c.values.length ++ "/" ++
        toString c.maxValues ++ ")"))
  else
    .ok { c with values := c.values ++ [v],
                 valueMap := mapPush c.valueMap v.name v }

/-- The mutation view of `add_value`: resulting state plus success flag
(`try_add_value` is `add_value(..).is_ok()`). -/
def Container.addValueState (c : Container) (v : VArc) : Container × Bool :=
  match c.addValue v with
  | .ok c2 => (c2, true)
  | .error _ => (c, false)

/-- `ValueContainer::remove_value`: drops the name's bucket from the index,
then retains in the sequence only values whose `Arc` address is not among the
removed bucket's addresses. -/
def Container.removeValue (c : Container) (name : String) : Container × Bool :=
  match mapGet c.valueMap name with
  | some removedValues =>
    let removedPtrs := removedValues.map VArc.ptr
    ({ c with valueMap := mapRemoveKey c.valueMap name,
              values := c.values.filter (fun v => !(removedPtrs.contains v.ptr)) },
     true)
  | none => (c, false)

/-- `ValueContainer::clear_values`: empties both structures, keeps header. -/
def Container.clearValues (c : Container) : Container :=
  { c with values := [], valueMap := [] }

/-- A mutating container operation (for stating invariants over arbitrary
operation sequences). -/
inductive ContainerOp where
  | add (v : VArc)
  | remove (name : String)
  | clear

/-- Applying one operation to the container state. -/
def Container.runOp (c : Container) (op : ContainerOp) : Container :=
  match op with
  | .add v => (c.addValueState v).1
  | .remove name => (c.removeValue name).1
  | .clear => c.clearValues

/-- Applying a sequence of operations. -/
def Container.runOps (c : Container) (ops : List ContainerOp) : Container :=
  ops.foldl Container.runOp c

/-- The values inserted by an operation sequence. -/
def opsAdds (ops : List ContainerOp) : List VArc :=
  ops.filterMap (fun op => match op with | .add v => some v | _ => none)

/-- The dual-structure invariant of spec section 3: every name's bucket in the
index is exactly the insertion-ordered sequence filtered to that name
(same multiset, multiplicities and intra-name order). -/
def indexInvariant (c : Container) : Prop :=
  ∀ n : String, mapGetList c.valueMap n = c.values.filter (fun v => v.name == n)

/-- Pointer consistency: among the listed stored values, equal `Arc`
addresses carry equal names.  This holds for every real Rust execution
(an address determines the pointed-to value, hence its name). -/
def PtrConsistent (l : List VArc) : Prop :=
  ∀ v ∈ l, ∀ w ∈ l, v.ptr = w.ptr → v.name = w.name

/-- Inserting a whole list, counting successful and failed `add_value` calls
(each insertion is attempted; a failure leaves the state unchanged). -/
def Container.addAll (c : Container) (vs : List VArc) : Container × Nat × Nat :=
  match vs with
  | [] => (c, 0, 0)
  | v :: rest =>
    let st := c.addValueState v
    let res := st.1.addAll rest
    (res.1, (if st.2 then 1 else 0) + res.2.1, (if st.2 then 0 else 1) + res.2.2)

theorem addValueState_full {c : Container} (v : VArc)
    (h : c.maxValues ≤ c.values.length) : c.addValueState v = (c, false) := by
  simp [Container.addValueState, Container.addValue, if_pos h]

theorem addValueState_ok {c : Container} (v : VArc)
    (h : c.values.length < c.maxValues) :
    c.addValueState v =
      ({ c with values := c.values ++ [v],
                valueMap := mapPush c.valueMap v.name v }, true) := by
  have h2 : ¬ c.values.length ≥ c.maxValues := by omega
  simp [Container.addValueState, Container.addValue, if_neg h2]

theorem mapGetList_push (m : List (String × List VArc)) (k : String) (v : VArc)
    (n : String) :
    mapGetList (mapPush m k v) n =
      if k = n then mapGetList m n ++ [v] else mapGetList m n := by
  induction m with
  | nil =>
    by_cases h : k = n <;> simp [mapPush, mapGetList, mapGet, h]
  | cons hd tl ih =>
    obtain ⟨k1, vs⟩ := hd
    by_cases h1 : k1 = k
    · subst h1
      by_cases h2 : k1 = n <;> simp [mapPush, mapGetList, mapGet, h2]
    · by_cases h2 : k1 = n
      · subst h2
        have h4 : ¬ k = k1 := fun hh => h1 hh.symm
        simp [mapPush, mapGetList, mapGet, h1, h4]
      · simpa [mapPush, mapGetList, mapGet, h1, h2] using ih

theorem mapRemoveKey_cons_eq (k : String) (vs : List VArc)
    (tl : List (String × List VArc)) :
    mapRemoveKey ((k, vs) :: tl) k = mapRemoveKey tl k := by
  simp [mapRemoveKey, List.filter_cons]

theorem mapRemoveKey_cons_ne {k1 k : String} (vs : List VArc)
    (tl : List (String × List VArc)) (h : ¬ k1 = k) :
    mapRemoveKey ((k1, vs) :: tl) k = (k1, vs) :: mapRemoveKey tl k := by
  simp [mapRemoveKey, List.filter_cons, h]

theorem mapGet_removeKey (m : List (String × List VArc)) (k n : String) :
    mapGet (mapRemoveKey m k) n = if k = n then none else mapGet m n := by
  induction m with
  | nil => simp [mapRemoveKey, mapGet]
  | cons hd tl ih =>
    obtain ⟨k1, vs⟩ := hd
    by_cases h1 : k1 = k
    · subst h1
      rw [mapRemoveKey_cons_eq, ih]
      by_cases h2 : k1 = n
      · subst h2; simp [mapGet]
      · have h3 : ¬ k1 = n := h2
        simp [mapGet, h3]
    · rw [mapRemoveKey_cons_ne vs tl h1]
      by_cases h2 : k1 = n
      · subst h2
        have h4 : ¬ k = k1 := fun hh => h1 hh.symm
        simp [mapGet, h4]
      · simp [mapGet, h2, ih]

theorem indexInvariant_new : indexInvariant Container.new := by
  intro n; rfl

theorem indexInvariant_add {c : Container} (v : VArc) (inv : indexInvariant c) :
    indexInvariant (c.addValueState v).1 := by
  by_cases h : c.maxValues ≤ c.values.length
  · rw [addValueState_full v h]; exact inv
  · rw [addValueState_ok v (by omega)]
    intro n
    simp only
    rw [mapGetList_push, List.filter_append]
    by_cases hn : v.name = n
    · rw [if_pos hn, inv n]
      have hb : (v.name == n) = true := by simp [hn]
      simp [List.filter, hb]
    · rw [if_neg hn, inv n]
      have hb : (v.name == n) = false := by simp [hn]
      simp [List.filter, hb]

theorem indexInvariant_clear (c : Container) : indexInvariant c.clearValues := by
  intro n; rfl

theorem ptrConsistent_sublist {A l : List VArc} (hpc : PtrConsistent A)
    (hsub : ∀ v ∈ l, v ∈ A) : PtrConsistent l :=
  fun v hv w hw hp => hpc v (hsub v hv) w (hsub w hw) hp

theorem removeValue_none {c : Container} {name : String}
    (hg : mapGet c.valueMap name = none) : c.removeValue name = (c, false) := by
  simp [Container.removeValue, hg]

theorem removeValue_some {c : Container} {name : String} {bucket : List VArc}
    (hg : mapGet c.valueMap name = some bucket) :
    c.removeValue name =
      ({ c with valueMap := mapRemoveKey c.valueMap name,
                values := c.values.filter
                  (fun v => !((bucket.map VArc.ptr).contains v.ptr)) }, true) := by
  simp [Container.removeValue, hg]

theorem contains_map_ptr_iff (bucket : List VArc) (p : Nat) :
    ((bucket.map VArc.ptr).contains p = true) ↔ ∃ w ∈ bucket, w.ptr = p := by
  rw [List.contains_eq_any_beq, List.any_eq_true]
  constructor
  · rintro ⟨q, hq, hbeq⟩
    obtain ⟨w, hw, hwp⟩ := List.mem_map.mp hq
    exact ⟨w, hw, by rw [hwp]; exact (Nat.beq_eq ..).mp (by simpa using hbeq) |>.symm⟩
  · rintro ⟨w, hw, hwp⟩
    exact ⟨p, List.mem_map.mpr ⟨w, hw, hwp⟩, by simp⟩

theorem removeValue_exact {c : Container} (name : String)
    (inv : indexInvariant c) (pc : PtrConsistent c.values) :
    (c.removeValue name).1.values =
      c.values.filter (fun v => !(v.name == name)) ∧
    indexInvariant (c.removeValue name).1 := by
  have hbucket : mapGetList c.valueMap name =
      c.values.filter (fun v => v.name == name) := inv name
  cases hg : mapGet c.valueMap name with
  | none =>
    have hempty : c.values.filter (fun v => v.name == name) = [] := by
      rw [← hbucket]; simp [mapGetList, hg]
    have hall : ∀ v ∈ c.values, (v.name == name) = false := by
      intro v hv
      rcases Bool.eq_false_or_eq_true (v.name == name) with ht | hf
      · exfalso
        have : v ∈ c.values.filter (fun v => v.name == name) :=
          List.mem_filter.mpr ⟨hv, ht⟩
        simp [hempty] at this
      · exact hf
    rw [removeValue_none hg]
    constructor
    · symm
      rw [List.filter_eq_self]
      intro v hv; simp [hall v hv]
    · exact inv
  | some bucket =>
    have hb2 : bucket = c.values.filter (fun v => v.name == name) := by
      rw [← hbucket]; simp [mapGetList, hg]
    have hmem : ∀ v ∈ c.values,
        (!((bucket.map VArc.ptr).contains v.ptr)) = (!(v.name == name)) := by
      intro v hv
      congr 1
      rw [Bool.eq_iff_iff, contains_map_ptr_iff, beq_iff_eq]
      constructor
      · rintro ⟨w, hw, hwp⟩
        have hwmem : w ∈ c.values := by
          rw [hb2] at hw; exact (List.mem_filter.mp hw).1
        have hwname : w.name = name := by
          rw [hb2] at hw
          have := (List.mem_filter.mp hw).2
          simpa using this
        have := pc v hv w hwmem hwp.symm
        exact this.trans hwname
      · intro hn
        exact ⟨v, by rw [hb2]; exact List.mem_filter.mpr ⟨hv, by simp [hn]⟩, rfl⟩
    have heq : c.values.filter (fun v => !((bucket.map VArc.ptr).contains v.ptr)) =
        c.values.filter (fun v => !(v.name == name)) := List.filter_congr hmem
    rw [removeValue_some hg]
    refine ⟨heq, ?_⟩
    intro n
    simp only [mapGetList, mapGet_removeKey]
    by_cases hn : name = n
    · subst hn
      rw [if_pos rfl]
      simp only [Option.getD_none]
      rw [heq, List.filter_filter]
      symm
      rw [List.filter_eq_nil_iff]
      intro v hv
      simp
    · rw [if_neg hn]
      have hinvn := inv n
      simp only [mapGetList] at hinvn
      rw [hinvn, heq, List.filter_filter]
      apply List.filter_congr
      intro v hv
      by_cases hv2 : v.name = n
      · have hnn : (v.name == name) = false := by
          rw [hv2]
          exact beq_eq_false_iff_ne.mpr (fun hh => hn hh.symm)
        simp [hv2, hnn]
        exact fun hh => hn hh.symm
      · have : (v.name == n) = false := beq_eq_false_iff_ne.mpr hv2
        simp [this]

theorem runOps_invariant (ops : List ContainerOp) (c : Container) (A : List VArc)
    (hpc : PtrConsistent A)
    (hadds : ∀ v ∈ opsAdds ops, v ∈ A)
    (hsub : ∀ v ∈ c.values, v ∈ A)
    (inv : indexInvariant c) :
    indexInvariant (c.runOps ops) ∧ (∀ v ∈ (c.runOps ops).values, v ∈ A) := by
  induction ops generalizing c with
  | nil => exact ⟨inv, hsub⟩
  | cons op rest ih =>
    have hstep : Container.runOps c (op :: rest) =
        Container.runOps (c.runOp op) rest := rfl
    rw [hstep]
    have hadds2 : ∀ v ∈ opsAdds rest, v ∈ A := by
      intro v hv
      apply hadds
      cases op <;> simp [opsAdds] at hv ⊢ <;> tauto
    cases op with
    | add v =>
      have hvA : v ∈ A := hadds v (by simp [opsAdds])
      have hinv2 : indexInvariant (c.runOp (.add v)) := indexInvariant_add v inv
      have hsub2 : ∀ w ∈ (c.runOp (.add v)).values, w ∈ A := by
        intro w hw
        simp only [Container.runOp] at hw
        by_cases h : c.maxValues ≤ c.values.length
        · rw [addValueState_full v h] at hw; exact hsub w hw
        · rw [addValueState_ok v (by omega)] at hw
          simp only [List.mem_append, List.mem_singleton] at hw
          rcases hw with hw | hw
          · exact hsub w hw
          · subst hw; exact hvA
      exact ih (c.runOp (.add v)) hadds2 hsub2 hinv2
    | remove name =>
      have pc : PtrConsistent c.values := ptrConsistent_sublist hpc hsub
      obtain ⟨heq, hinv2⟩ := removeValue_exact name inv pc
      have hsub2 : ∀ w ∈ (c.runOp (.remove name)).values, w ∈ A := by
        intro w hw
        simp only [Container.runOp] at hw
        rw [heq] at hw
        exact hsub w (List.mem_filter.mp hw).1
      exact ih (c.runOp (.remove name)) hadds2 hsub2 hinv2
    | clear =>
      exact ih c.clearValues hadds2
        (by intro v hv; simp [Container.clearValues] at hv)
        (indexInvariant_clear c)

theorem addAll_cons (c : Container) (v : VArc) (rest : List VArc) :
    c.addAll (v :: rest) =
      (((c.addValueState v).1.addAll rest).1,
       (if (c.addValueState v).2 then 1 else 0) +
         ((c.addValueState v).1.addAll rest).2.1,
       (if (c.addValueState v).2 then 0 else 1) +
         ((c.addValueState v).1.addAll rest).2.2) := rfl

theorem addAll_cons_full {c : Container} (v : VArc) (rest : List VArc)
    (h : c.maxValues ≤ c.values.length) :
    c.addAll (v :: rest) =
      ((c.addAll rest).1, (c.addAll rest).2.1, 1 + (c.addAll rest).2.2) := by
  rw [addAll_cons, addValueState_full v h]
  simp

theorem addAll_cons_ok {c : Container} (v : VArc) (rest : List VArc)
    (h : c.values.length < c.maxValues) :
    c.addAll (v :: rest) =
      (((c.addValueState v).1.addAll rest).1,
       1 + ((c.addValueState v).1.addAll rest).2.1,
       ((c.addValueState v).1.addAll rest).2.2) := by
  rw [addAll_cons]
  rw [show (c.addValueState v).2 = true by rw [addValueState_ok v h]]
  simp

theorem addAll_spec (vs : List VArc) : ∀ c : Container,
    c.values.length ≤ c.maxValues →
    (c.addAll vs).2.1 = min vs.length (c.maxValues - c.values.length) ∧
    (c.addAll vs).2.2 = vs.length - min vs.length (c.maxValues - c.values.length) ∧
    (c.addAll vs).1.values.length = min (c.values.length + vs.length) c.maxValues ∧
    (c.addAll vs).1.maxValues = c.maxValues := by
  induction vs with
  | nil =>
    intro c h
    simp only [Container.addAll, List.length_nil]
    refine ⟨by omega, by omega, by omega, trivial⟩
  | cons v rest ih =>
    intro c h
    by_cases hfull : c.maxValues ≤ c.values.length
    · rw [addAll_cons_full v rest hfull]
      obtain ⟨ih1, ih2, ih3, ih4⟩ := ih c h
      simp only [List.length_cons, ih1, ih2, ih3, ih4]
      refine ⟨by omega, by omega, by omega, trivial⟩
    · have hlt : c.values.length < c.maxValues := by omega
      have hst := addValueState_ok v hlt
      have hlen : (c.addValueState v).1.values.length = c.values.length + 1 := by
        rw [hst]; simp
      have hmax : (c.addValueState v).1.maxValues = c.maxValues := by rw [hst]
      obtain ⟨ih1, ih2, ih3, ih4⟩ := ih (c.addValueState v).1 (by omega)
      rw [addAll_cons_ok v rest hlt]
      simp only [List.length_cons, ih1, ih2, ih3, ih4, hlen, hmax]
      refine ⟨by omega, by omega, by omega, trivial⟩

/-- C10: `swap_header` exchanges exactly the source and target id/sub-id
pairs; it leaves `message_type`, `version`, the value sequence, the name
index and the `max_values` ceiling unchanged; applying it twice restores the
original container exactly. -/
theorem C10_swap_header_frame (c : Container) :
    c.swapHeader.source_id = c.target_id ∧
    c.swapHeader.source_sub_id = c.target_sub_id ∧
    c.swapHeader.target_id = c.source_id ∧
    c.swapHeader.target_sub_id = c.source_sub_id ∧
    c.swapHeader.message_type = c.message_type ∧
    c.swapHeader.version = c.version ∧
    c.swapHeader.values = c.values ∧
    c.swapHeader.valueMap = c.valueMap ∧
    c.swapHeader.maxValues = c.maxValues ∧
    c.swapHeader.swapHeader = c := by
  refine ⟨rfl, rfl, rfl, rfl, rfl, rfl, rfl, rfl, rfl, rfl⟩

/-- C3: with a requested ceiling `m`, the effective ceiling is
`min m ABSOLUTE_MAX_VALUES`; attempting `max_values + 1` insertions yields
exactly `max_values` successes and one capacity error, the final count equals
`max_values`, the count never exceeds the ceiling after any insertion
sequence, and a failing `add_value` leaves the container unchanged. -/
theorem C3_capacity_enforcement (m : Nat) (vs : List VArc)
    (h : vs.length = (Container.withMaxValues m).maxValues + 1) :
    (Container.withMaxValues m).maxValues = min m ABSOLUTE_MAX_VALUES ∧
    ((Container.withMaxValues m).addAll vs).2.1 = min m ABSOLUTE_MAX_VALUES ∧
    ((Container.withMaxValues m).addAll vs).2.2 = 1 ∧
    ((Container.withMaxValues m).addAll vs).1.values.length =
      min m ABSOLUTE_MAX_VALUES ∧
    (∀ ws : List VArc,
      ((Container.withMaxValues m).addAll ws).1.values.length ≤
        min m ABSOLUTE_MAX_VALUES) ∧
    (∀ c : Container, ∀ v : VArc, c.maxValues ≤ c.values.length →
      c.addValueState v = (c, false)) := by
  have hmax : (Container.withMaxValues m).maxValues = min m ABSOLUTE_MAX_VALUES := rfl
  have hlen0 : (Container.withMaxValues m).values.length = 0 := rfl
  obtain ⟨h1, h2, h3, h4⟩ := addAll_spec vs (Container.withMaxValues m) (by omega)
  refine ⟨hmax, ?_, ?_, ?_, ?_, fun c v hcv => addValueState_full v hcv⟩
  · rw [h1, hmax, hlen0, h, hmax]; omega
  · rw [h2, hmax, hlen0, h, hmax]; omega
  · rw [h3, hmax, hlen0, h, hmax]; omega
  · intro ws
    obtain ⟨_, _, w3, _⟩ := addAll_spec ws (Container.withMaxValues m) (by omega)
    rw [w3, hmax, hlen0]
    omega

def c3List : List VArc :=
  [⟨1, .stringV "key1" "value1"⟩, ⟨2, .stringV "key2" "value2"⟩,
   ⟨3, .stringV "key3" "value3"⟩]

theorem C3_capacity_enforcement_witness :
    c3List.length = (Container.withMaxValues 2).maxValues + 1 ∧
    ((Container.withMaxValues 2).addAll c3List).2.1 = 2 ∧
    ((Container.withMaxValues 2).addAll c3List).2.2 = 1 ∧
    ((Container.withMaxValues 2).addAll c3List).1.values.length = 2 := by
  have h := C3_capacity_enforcement 2 c3List (by rfl)
  have hm : min 2 ABSOLUTE_MAX_VALUES = 2 := by
    simp [ABSOLUTE_MAX_VALUES]
  exact ⟨by rfl, h.2.1.trans hm, h.2.2.1, h.2.2.2.1.trans hm⟩

/-- C4: after any sequence of `add_value`, `remove_value` and `clear_values`
operations (under the pointer-consistency that every real Rust execution
provides: equal `Arc` addresses carry equal names), the name index is exactly
the insertion-ordered value sequence re-grouped by name; and a further
`remove_value(name)` removes from the sequence exactly the values whose name
equals the argument and nothing else, and empties that name's bucket while
keeping every other bucket exactly grouped. -/
theorem C4_index_invariant_and_exact_removal (ops : List ContainerOp)
    (name : String) (hpc : PtrConsistent (opsAdds ops)) :
    indexInvariant (Container.new.runOps ops) ∧
    ((Container.new.runOps ops).removeValue name).1.values =
      (Container.new.runOps ops).values.filter (fun v => !(v.name == name)) ∧
    indexInvariant ((Container.new.runOps ops).removeValue name).1 := by
  obtain ⟨inv, hsub⟩ := runOps_invariant ops Container.new (opsAdds ops) hpc
    (fun v hv => hv) (by intro v hv; simp [Container.new] at hv) indexInvariant_new
  obtain ⟨hrem, hinv2⟩ := removeValue_exact name inv (ptrConsistent_sublist hpc hsub)
  exact ⟨inv, hrem, hinv2⟩

def c4Ops : List ContainerOp :=
  [.add ⟨1, .intV "tag" 7⟩, .add ⟨2, .intV "other" 7⟩, .add ⟨3, .intV "tag" 9⟩]

theorem C4_index_invariant_and_exact_removal_witness :
    mapGetList (Container.new.runOps c4Ops).valueMap "tag" =
      [⟨1, .intV "tag" 7⟩, ⟨3, .intV "tag" 9⟩] ∧
    ((Container.new.runOps c4Ops).removeValue "tag").1.values =
      [⟨2, .intV "other" 7⟩] := by
  have hpc : PtrConsistent (opsAdds c4Ops) := by
    intro v hv w hw hp
    simp [c4Ops, opsAdds] at hv hw
    rcases hv with rfl | rfl | rfl <;> rcases hw with rfl | rfl | rfl <;>
      first | rfl | (exfalso; exact absurd hp (by decide))
  have h := C4_index_invariant_and_exact_removal c4Ops "tag" hpc
  exact ⟨(h.1 "tag").trans (by rfl), h.2.1.trans (by rfl)⟩

/-- C2 (amended): for the kinds whose `to_bytes` emits the tagged record --
`Null`, `Bool`, `Int`, `Long`, `String`, `Bytes`, and the float kinds with
their bit patterns abstracted -- the produced bytes follow the spec layout
`[type:1][name_len:4 LE][name:UTF-8][payload_size:4 LE][payload]` exactly,
for every name and stored value. -/
theorem C2_tagged_layout_of_conforming_kinds (name : String) (b : Bool)
    (i v32 : Int) (s : String) (data : List Nat) (fbits dbits : Nat) :
    (Val.nullV name).toBytes = wireLayout 0 name [] ∧
    (Val.boolV name b).toBytes = wireLayout 1 name [if b then 1 else 0] ∧
    (Val.intV name i).toBytes = wireLayout 4 name (i32Bytes i) ∧
    (Val.longV name v32).toBytes = wireLayout 6 name (i32Bytes v32) ∧
    (Val.stringV name s).toBytes = wireLayout 13 name (utf8 s) ∧
    (Val.bytesV name data).toBytes = wireLayout 12 name data ∧
    floatValueToBytes name fbits = wireLayout 10 name (le32 fbits) ∧
    doubleValueToBytes name dbits = wireLayout 11 name (le64 dbits) := by
  refine ⟨?_, ?_, ?_, ?_, ?_, ?_, ?_, ?_⟩ <;>
    simp [Val.toBytes, wireLayout, floatValueToBytes, doubleValueToBytes,
      i32Bytes, le32, le64]

/-- C2 counterexample: `ShortValue::to_bytes` (and likewise the other
`to_le_bytes().to_vec()` kinds) returns only the raw 2-byte little-endian
payload, not the tagged record the claim asserts for every kind. -/
theorem C2_short_raw_payload_counterexample :
    (Val.shortV "a" 1).toBytes = [1, 0] ∧
    (Val.shortV "a" 1).toBytes ≠ wireLayout 2 "a" (i16Bytes 1) ∧
    (Val.ushortV "a" 1).toBytes = [1, 0] ∧
    (Val.uintV "a" 1).toBytes = [1, 0, 0, 0] ∧
    (Val.ulongV "a" 1).toBytes = [1, 0, 0, 0] ∧
    (Val.llongV "a" 1).toBytes = [1, 0, 0, 0, 0, 0, 0, 0] ∧
    (Val.ullongV "a" 1).toBytes = [1, 0, 0, 0, 0, 0, 0, 0] := by
  refine ⟨by decide, by decide, by decide, by decide, by decide, by decide, by decide⟩

/-- C5: `LongValue::new` rejects `i32::MAX + 1` and accepts `i32::MAX`
(construction-time 32-bit range enforcement), and `LLongValue::to_bytes`
is exactly 8 bytes; but `LongValue::to_bytes` returns the 13+|name| byte
tagged record -- 17 bytes for the test suite's own input, not the 4 raw
little-endian bytes that the claim and the repository's
`test_long_value_serializes_as_4_bytes` / little-endian tests assert. -/
theorem C5_long_range_and_serialized_sizes :
    LongValue.new "test" 2147483648 =
      .error (.invalidTypeConversion "i64(2147483648)" "i32 (long_value, type 6)") ∧
    LongValue.new "test" 2147483647 = .ok (.longV "test" 2147483647) ∧
    (Val.llongV "test" 9223372036854775807).toBytes.length = 8 ∧
    (Val.longV "test" 12345).toBytes.length = 17 ∧
    (Val.longV "test" 12345).toBytes ≠ [57, 48, 0, 0] ∧
    (Val.longV "test" 12345).toBytes =
      [6, 4, 0, 0, 0, 116, 101, 115, 116, 4, 0, 0, 0, 57, 48, 0, 0] := by
  refine ⟨rfl, rfl, by decide, by decide, by decide, by decide⟩

/-- `wire_protocol::value_type_to_cpp_name` (same table as `Display`). -/
def valueTypeToCppName (vt : ValueType) : String := vt.display

/-- `wire_protocol::serialize_value_cpp`: renders one `[name,type,data];`
item.  The float/double arm calls `to_float`/`to_double`, which no value of
this integer embedding carries (no `Val` has those types), so that arm is
marked out of the model and is never reached. -/
def serializeValueCpp (v : Val) : Except ContainerErr String := do
  let type_name := valueTypeToCppName v.valueType
  let data_str ← (match v.valueType with
    | .bool => do
        let b ← v.toBool
        pure (if b then "true" else "false")
    | .short => do let x ← v.toShort; pure (toString x)
    | .ushort => do let x ← v.toUshort; pure (toString x)
    | .int => do let x ← v.toInt; pure (toString x)
    | .uint => do let x ← v.toUint; pure (toString x)
    | .long | .llong => do let x ← v.toLong; pure (toString x)
    | .ulong | .ullong => do let x ← v.toUlong; pure (toString x)
    | .float | .double =>
        (.error (.serializationError "float kinds outside this embedding") :
          Except ContainerErr String)
    | .string => pure v.toDisplayString
    | .bytes => pure (bytesToHex v.toBytes)
    | .container => pure "0"
    | .array => pure "0"
    | .null => pure "")
  pure ("[" ++ v.name ++ "," ++ type_name ++ "," ++ data_str ++ "];")

/-- The header section of `wire_protocol::serialize_cpp_wire`: routing
fields only when `message_type != "data_container"`, and within that the
target pair only when one of the target fields is nonempty, likewise the
source pair; `[5,message_type];[6,version];` always. -/
def serializeCppWireHeader (c : Container) : String :=
  "@header=\x7b\x7b" ++
  (if c.message_type ≠ "data_container" then
    (if c.target_id ≠ "" ∨ c.target_sub_id ≠ "" then
      "[1," ++ c.target_id ++ "];" ++ "[2," ++ c.target_sub_id ++ "];"
    else "") ++
    (if c.source_id ≠ "" ∨ c.source_sub_id ≠ "" then
      "[3," ++ c.source_id ++ "];" ++ "[4," ++ c.source_sub_id ++ "];"
    else "")
  else "") ++
  "[5," ++ c.message_type ++ "];" ++ "[6," ++ c.version ++ "];" ++ "\x7d\x7d;"

/-- The data section of `serialize_cpp_wire`: values whose
`serialize_value_cpp` fails are silently skipped (`if let Ok`). -/
def serializeCppWireData (vals : List VArc) : String :=
  vals.foldl
    (fun acc v =>
      match serializeValueCpp v.val with
      | .ok s => acc ++ s
      | .error _ => acc)
    ""

/-- `wire_protocol::serialize_cpp_wire` (the source function always returns
`Ok`; the result string is header section then data section). -/
def serializeCppWire (c : Container) : String :=
  serializeCppWireHeader c ++ "@data=\x7b\x7b" ++
    serializeCppWireData c.values ++ "\x7d\x7d;"

/-- Header shape with the routing fields omitted. -/
def headerNoRouting (c : Container) : String :=
  "@header=\x7b\x7b" ++ "[5," ++ c.message_type ++ "];" ++
    "[6," ++ c.version ++ "];" ++ "\x7d\x7d;"

/-- The example scenario container of the spec:
source ("client","session"), target ("server","handler"),
message_type "user_data", values Int("count",42), String("name","Alice"). -/
def exampleWireContainer : Container :=
  ((((Container.new.setSource "client" "session").setTarget "server"
      "handler").setMessageType "user_data").addValueState
        ⟨1, .intV "count" 42⟩).1.addValueState ⟨2, .stringV "name" "Alice"⟩ |>.1

set_option maxHeartbeats 2000000 in
/-- C8 (amended): `serialize_cpp_wire` omits the four routing fields when
`message_type == "data_container"`, and additionally omits the target pair
when both target fields are empty and the source pair when both source
fields are empty; message_type and version are always emitted; and the
spec's example scenario produces exactly the expected items. -/
theorem C8_wire_routing_omission_and_example (c : Container) :
    (c.message_type = "data_container" →
      serializeCppWireHeader c = headerNoRouting c) ∧
    (c.target_id = "" ∧ c.target_sub_id = "" ∧ c.source_id = "" ∧
        c.source_sub_id = "" →
      serializeCppWireHeader c = headerNoRouting c) ∧
    (∃ pre : String, serializeCppWireHeader c =
      "@header=\x7b\x7b" ++ pre ++ "[5," ++ c.message_type ++ "];" ++
        "[6," ++ c.version ++ "];" ++ "\x7d\x7d;") ∧
    serializeCppWire exampleWireContainer =
      "@header=\x7b\x7b[1,server];[2,handler];[3,client];[4,session];[5,user_data];[6,1.0.0.0];\x7d\x7d;@data=\x7b\x7b[count,int_value,42];[name,string_value,Alice];\x7d\x7d;" ∧
    ("[3,client];".data <:+: (serializeCppWire exampleWireContainer).data) ∧
    ("[4,session];".data <:+: (serializeCppWire exampleWireContainer).data) ∧
    ("[1,server];".data <:+: (serializeCppWire exampleWireContainer).data) ∧
    ("[2,handler];".data <:+: (serializeCppWire exampleWireContainer).data) ∧
    ("[5,user_data];".data <:+: (serializeCppWire exampleWireContainer).data) ∧
    ("[count,int_value,42];".data <:+: (serializeCppWire exampleWireContainer).data) ∧
    ("[name,string_value,Alice];".data <:+: (serializeCppWire exampleWireContainer).data) := by
  refine ⟨?_, ?_, ⟨_, rfl⟩, by decide, by decide, by decide, by decide, by decide,
    by decide, by decide, by decide⟩
  · intro h
    have h2 : ¬ c.message_type ≠ "data_container" := by simp [h]
    simp only [serializeCppWireHeader, if_neg h2, headerNoRouting]
    rfl
  · rintro ⟨h1, h2, h3, h4⟩
    by_cases hm : c.message_type ≠ "data_container"
    · simp only [serializeCppWireHeader, if_pos hm, h1, h2, h3, h4, headerNoRouting]
      simp
    · simp only [serializeCppWireHeader, if_neg hm, headerNoRouting]
      rfl

def exampleWireRoutingless : Container := Container.new.setMessageType "user_data"

set_option maxHeartbeats 1000000 in
/-- C8 counterexample to "exactly when": a container whose `message_type`
is not `"data_container"` but whose four routing fields are all empty also
gets the routing fields omitted, so omission is not equivalent to
`message_type == "data_container"`. -/
theorem C8_omission_not_exactly_data_container_counterexample :
    exampleWireRoutingless.message_type ≠ "data_container" ∧
    serializeCppWire exampleWireRoutingless =
      "@header=\x7b\x7b[5,user_data];[6,1.0.0.0];\x7d\x7d;@data=\x7b\x7b\x7d\x7d;" ∧
    ¬ ("[1,".data <:+: (serializeCppWire exampleWireRoutingless).data) ∧
    ¬ ("[2,".data <:+: (serializeCppWire exampleWireRoutingless).data) ∧
    ¬ ("[3,".data <:+: (serializeCppWire exampleWireRoutingless).data) ∧
    ¬ ("[4,".data <:+: (serializeCppWire exampleWireRoutingless).data) := by
  refine ⟨by decide, by decide, by decide, by decide, by decide, by decide⟩

/-- C9: `serialize_value_cpp` hex-encodes the result of
`BytesValue::to_bytes` -- the full tagged record including the type byte,
name header and size field -- not just the payload, so the data field is not
the hex of the payload bytes and the round trip cannot restore the payload
(the repository's own `test_bytes_hex_encoding` asserts the payload form). -/
theorem C9_bytes_field_is_hex_of_full_record :
    (Val.bytesV "data" [72, 101, 108, 108, 111]).toBytes =
      [12, 4, 0, 0, 0, 100, 97, 116, 97, 5, 0, 0, 0, 72, 101, 108, 108, 111] ∧
    serializeValueCpp (.bytesV "data" [72, 101, 108, 108, 111]) =
      .ok "[data,bytes_value,0c04000000646174610500000048656c6c6f];" ∧
    bytesToHex [72, 101, 108, 108, 111] = "48656c6c6f" ∧
    "0c04000000646174610500000048656c6c6f" ≠ "48656c6c6f" := by
  refine ⟨by decide, rfl, by decide, by decide⟩

/-- A `serde_json::Value` tree.  Numbers are integers here: no claim of this
development involves floating point JSON payloads, and serde keeps integer
numbers exact (i64/u64). -/
inductive Json where
  | null
  | bool (b : Bool)
  | num (n : Int)
  | str (s : String)
  | arr (elems : List Json)
  | obj (fields : List (String × Json))

/-- `serde_json::Value::get(key)` on an object (first matching key;
serde maps hold unique keys), `None` on any other node. -/
def Json.getKey : Json → String → Option Json
  | .obj fields, k => fields.lookup k
  | _, _ => none

/-- The tolerant `value[key]` indexing of serde_json: `Null` when absent. -/
def Json.index (j : Json) (k : String) : Json := (j.getKey k).getD .null

/-- `Value::as_str`. -/
def Json.asStr : Json → Option String
  | .str s => some s
  | _ => none

/-- `Value::as_bool`. -/
def Json.asBool : Json → Option Bool
  | .bool b => some b
  | _ => none

/-- `Value::as_i64`: integer numbers within the `i64` range. -/
def Json.asI64 : Json → Option Int
  | .num n => if -9223372036854775808 ≤ n ∧ n ≤ 9223372036854775807 then some n else none
  | _ => none

/-- `Value::as_u64`: non-negative integer numbers within the `u64` range. -/
def Json.asU64 : Json → Option Nat
  | .num n => if 0 ≤ n ∧ n ≤ 18446744073709551615 then some n.toNat else none
  | _ => none

/-- `Value::as_array`. -/
def Json.asArr : Json → Option (List Json)
  | .arr xs => some xs
  | _ => none

theorem sizeOf_lookup {k : String} {fields : List (String × Json)} {v : Json}
    (h : fields.lookup k = some v) : sizeOf v < sizeOf fields := by
  induction fields with
  | nil => simp [List.lookup] at h
  | cons p rest ih =>
    obtain ⟨a, b⟩ := p
    rw [List.lookup] at h
    by_cases hk : k == a
    · rw [hk] at h
      simp at h
      subst h
      simp
      omega
    · have hkf : (k == a) = false := by simpa using hk
      rw [hkf] at h
      simp at h
      have := ih h
      simp
      omega

theorem sizeOf_getKey {j : Json} {k : String} {v : Json}
    (h : j.getKey k = some v) : sizeOf v < sizeOf j := by
  cases j <;> simp [Json.getKey] at h
  case obj fields =>
    have := sizeOf_lookup h
    simp
    omega

theorem sizeOf_asArr {j : Json} {xs : List Json} (h : j.asArr = some xs) :
    sizeOf xs < sizeOf j := by
  cases j <;> simp [Json.asArr] at h
  case arr ys =>
    subst h
    simp

/-- The adapter's `type_name_from_value_type` table. -/
def typeNameFromValueType : ValueType → String
  | .null => "null" | .bool => "bool" | .short => "short" | .ushort => "ushort"
  | .int => "int" | .uint => "uint" | .long => "long" | .ulong => "ulong"
  | .llong => "llong" | .ullong => "ullong" | .float => "float"
  | .double => "double" | .string => "string" | .bytes => "bytes"
  | .container => "container" | .array => "array"

/-- The adapter's `value_type_from_name` reverse table. -/
def valueTypeFromName (name : String) : Option ValueType :=
  if name = "null" then some .null else if name = "bool" then some .bool
  else if name = "short" then some .short else if name = "ushort" then some .ushort
  else if name = "int" then some .int else if name = "uint" then some .uint
  else if name = "long" then some .long else if name = "ulong" then some .ulong
  else if name = "llong" then some .llong else if name = "ullong" then some .ullong
  else if name = "float" then some .float else if name = "double" then some .double
  else if name = "string" then some .string else if name = "bytes" then some .bytes
  else if name = "container" then some .container
  else if name = "array" then some .array
  else none

mutual
/-- `JsonV2Adapter::value_to_v2_dict`: one value as its v2 dictionary, fields
in insertion order `name`, `type` (the `ValueType` discriminant, so 12 for
bytes and 13 for string), `type_name`, then the kind-specific `data`
(plus `encoding` for bytes, `child_count` / `element_count` for the nested
kinds).  Numeric `data` goes through the trait conversions with
`unwrap_or(0)` exactly as the source does, so the kinds whose conversion is
the failing trait default (short, ushort, uint, ulong, ullong) serialize as
`0`.  The float kinds are outside this integer embedding. -/
def valueToV2Dict : Val → Json
  | .nullV n =>
      .obj [("name", .str n), ("type", .num ValueType.null.code),
            ("type_name", .str (typeNameFromValueType .null)), ("data", .null)]
  | .boolV n b =>
      .obj [("name", .str n), ("type", .num ValueType.bool.code),
            ("type_name", .str (typeNameFromValueType .bool)),
            ("data", .bool ((Val.boolV n b).toBool.toOption.getD false))]
  | .shortV n x =>
      .obj [("name", .str n), ("type", .num ValueType.short.code),
            ("type_name", .str (typeNameFromValueType .short)),
            ("data", .num ((Val.shortV n x).toShort.toOption.getD 0))]
  | .ushortV n x =>
      .obj [("name", .str n), ("type", .num ValueType.ushort.code),
            ("type_name", .str (typeNameFromValueType .ushort)),
            ("data", .num ((Val.ushortV n x).toUshort.toOption.getD 0))]
  | .intV n x =>
      .obj [("name", .str n), ("type", .num ValueType.int.code),
            ("type_name", .str (typeNameFromValueType .int)),
            ("data", .num ((Val.intV n x).toInt.toOption.getD 0))]
  | .uintV n x =>
      .obj [("name", .str n), ("type", .num ValueType.uint.code),
            ("type_name", .str (typeNameFromValueType .uint)),
            ("data", .num ((Val.uintV n x).toUint.toOption.getD 0))]
  | .longV n x =>
      .obj [("name", .str n), ("type", .num ValueType.long.code),
            ("type_name", .str (typeNameFromValueType .long)),
            ("data", .num ((Val.longV n x).toLong.toOption.getD 0))]
  | .ulongV n x =>
      .obj [("name", .str n), ("type", .num ValueType.ulong.code),
            ("type_name", .str (typeNameFromValueType .ulong)),
            ("data", .num ((Val.ulongV n x).toUlong.toOption.getD 0))]
  | .llongV n x =>
      .obj [("name", .str n), ("type", .num ValueType.llong.code),
            ("type_name", .str (typeNameFromValueType .llong)),
            ("data", .num ((Val.llongV n x).toLong.toOption.getD 0))]
  | .ullongV n x =>
      .obj [("name", .str n), ("type", .num ValueType.ullong.code),
            ("type_name", .str (typeNameFromValueType .ullong)),
            ("data", .num ((Val.ullongV n x).toUlong.toOption.getD 0))]
  | .stringV n s =>
      .obj [("name", .str n), ("type", .num ValueType.string.code),
            ("type_name", .str (typeNameFromValueType .string)),
            ("data", .str (Val.toDisplayString (.stringV n s)))]
  | .bytesV n data =>
      .obj [("name", .str n), ("type", .num ValueType.bytes.code),
            ("type_name", .str (typeNameFromValueType .bytes)),
            ("data", .str (base64Encode data)), ("encoding", .str "base64")]
  | .containerV n children =>
      .obj [("name", .str n), ("type", .num ValueType.container.code),
            ("type_name", .str (typeNameFromValueType .container)),
            ("data", .arr (valueToV2DictList children)),
            ("child_count", .num children.length)]
  | .arrayV n elems =>
      .obj [("name", .str n), ("type", .num ValueType.array.code),
            ("type_name", .str (typeNameFromValueType .array)),
            ("data", .arr (valueToV2DictList elems)),
            ("element_count", .num elems.length)]

/-- The element-wise `value_to_v2_dict` over a child list (the source's
iterator maps). -/
def valueToV2DictList : List Val → List Json
  | [] => []
  | v :: rest => valueToV2Dict v :: valueToV2DictList rest
end

/-- `JsonV2Adapter::to_v2_json` up to JSON text: the v2 document tree.  (The
serde print/parse pair between `to_v2_json` and `from_v2_json` is the identity
on trees and is elided; both adapters are stated over the tree.) -/
def toV2Json (c : Container) : Json :=
  .obj [("container", .obj [
    ("version", .str "2.0"),
    ("metadata", .obj [
      ("message_type", .str c.message_type),
      ("protocol_version", .str c.version),
      ("source", .obj [("id", .str c.source_id), ("sub_id", .str c.source_sub_id)]),
      ("target", .obj [("id", .str c.target_id), ("sub_id", .str c.target_sub_id)])]),
    ("values", .arr (valueToV2DictList (c.values.map VArc.val)))])]

/-- `JsonV2Adapter::v2_dict_to_value`.  `None` is an entry the caller skips.
Byte-faithful to the source, including the numeric type map that sends 12 to
String and 13 to Bytes -- the reverse of the `ValueType` discriminants used by
`value_to_v2_dict` -- and the silent-skip `None` returns on missing or
mistyped fields.  The float and double arms construct float values and are
outside this integer embedding: they are collapsed to `none` here (no claim
below exercises them). -/
def v2DictToValue (value_data : Json) : Option Val :=
  match (value_data.getKey "name").bind Json.asStr with
  | none => none
  | some name =>
  match (value_data.getKey "type").bind Json.asU64 with
  | none => none
  | some t =>
  let type_id := t % 256
  match (if type_id = 0 then some ValueType.null
    else if type_id = 1 then some ValueType.bool
    else if type_id = 2 then some ValueType.short
    else if type_id = 3 then some ValueType.ushort
    else if type_id = 4 then some ValueType.int
    else if type_id = 5 then some ValueType.uint
    else if type_id = 6 then some ValueType.long
    else if type_id = 7 then some ValueType.ulong
    else if type_id = 8 then some ValueType.llong
    else if type_id = 9 then some ValueType.ullong
    else if type_id = 10 then some ValueType.float
    else if type_id = 11 then some ValueType.double
    else if type_id = 12 then some ValueType.string
    else if type_id = 13 then some ValueType.bytes
    else if type_id = 14 then some ValueType.container
    else if type_id = 15 then some ValueType.array
    else ((value_data.getKey "type_name").bind Json.asStr).bind valueTypeFromName) with
  | none => none
  | some value_type =>
  match value_type with
  | .null => some (.containerV name [])
  | .bool =>
    match value_data.getKey "data" with
    | none => none
    | some d => some (.boolV name (d.asBool.getD false))
  | .short =>
    match value_data.getKey "data" with
    | none => none
    | some d => some (.shortV name (intCast 16 (d.asI64.getD 0)))
  | .ushort =>
    match value_data.getKey "data" with
    | none => none
    | some d => some (.ushortV name ((d.asU64.getD 0) % 65536))
  | .int =>
    match value_data.getKey "data" with
    | none => none
    | some d => some (.intV name (intCast 32 (d.asI64.getD 0)))
  | .uint =>
    match value_data.getKey "data" with
    | none => none
    | some d => some (.uintV name ((d.asU64.getD 0) % 4294967296))
  | .long =>
    match value_data.getKey "data" with
    | none => none
    | some d =>
      match LongValue.new name (d.asI64.getD 0) with
      | .ok v => some v
      | .error _ => none
  | .ulong =>
    match value_data.getKey "data" with
    | none => none
    | some d =>
      match ULongValue.new name (d.asU64.getD 0) with
      | .ok v => some v
      | .error _ => none
  | .llong =>
    match value_data.getKey "data" with
    | none => none
    | some d => some (LLongValue.new name (d.asI64.getD 0))
  | .ullong =>
    match value_data.getKey "data" with
    | none => none
    | some d => some (.ullongV name (d.asU64.getD 0))
  | .float => none
  | .double => none
  | .string =>
    match value_data.getKey "data" with
    | none => none
    | some d => some (.stringV name (d.asStr.getD ""))
  | .bytes =>
    let encoding := ((value_data.getKey "encoding").bind Json.asStr).getD "base64"
    match value_data.getKey "data" with
    | none => none
    | some d =>
      let data_str := d.asStr.getD ""
      if encoding = "base64" then
        match base64Decode data_str with
        | some bytes => some (.bytesV name bytes)
        | none => some (.bytesV name [])
      else some (.bytesV name (utf8 data_str))
  | .container =>
    match h1 : value_data.getKey "data" with
    | none => some (.containerV name [])
    | some dj =>
      match h2 : dj.asArr with
      | none => some (.containerV name [])
      | some children_data =>
        some (.containerV name
          (children_data.attach.filterMap (fun cd => v2DictToValue cd.1)))
  | .array =>
    match h1 : value_data.getKey "data" with
    | none => some (.arrayV name [])
    | some dj =>
      match h2 : dj.asArr with
      | none => some (.arrayV name [])
      | some elements_data =>
        some (.arrayV name
          (elements_data.attach.filterMap (fun ed => v2DictToValue ed.1)))
termination_by value_data
decreasing_by
  · have hm := List.sizeOf_lt_of_mem cd.2
    have ha := sizeOf_asArr h2
    have hg := sizeOf_getKey h1
    omega
  · have hm := List.sizeOf_lt_of_mem ed.2
    have ha := sizeOf_asArr h2
    have hg := sizeOf_getKey h1
    omega

/-- The value loop of `from_v2_json`: entries whose `v2_dict_to_value` comes
back `None` are silently skipped, parsed values go through `add_value` with
`?` propagation.  Fresh `Arc` addresses are modelled as 0; no claim about this
parser observes pointer identity. -/
def addV2Values (c : Container) : List Json → Except ContainerErr Container
  | [] => .ok c
  | value_data :: rest =>
    match v2DictToValue value_data with
    | none => addV2Values c rest
    | some v =>
      match c.addValue ⟨0, v⟩ with
      | .error e => .error e
      | .ok c2 => addV2Values c2 rest

/-- `JsonV2Adapter::from_v2_json` from the parsed JSON tree on. -/
def fromV2Json (data : Json) : Except ContainerErr Container :=
  match data.getKey "container" with
  | none =>
      .error (.invalidDataFormat "Missing \x27container\x27 root element in JSON v2.0")
  | some container_data =>
    let version := ((container_data.getKey "version").bind Json.asStr).getD "1.0"
    if version ≠ "2.0" then
      .error (.invalidDataFormat
        ("Unsupported JSON version: " ++ version ++ " (expected 2.0)"))
    else
      let metadata := (container_data.getKey "metadata").getD .null
      let source := (metadata.getKey "source").getD .null
      let target := (metadata.getKey "target").getD .null
      let source_id := ((source.getKey "id").bind Json.asStr).getD ""
      let source_sub_id := ((source.getKey "sub_id").bind Json.asStr).getD ""
      let target_id := ((target.getKey "id").bind Json.asStr).getD ""
      let target_sub_id := ((target.getKey "sub_id").bind Json.asStr).getD ""
      let message_type := ((metadata.getKey "message_type").bind Json.asStr).getD ""
      let c0 := ((Container.new.setSource source_id source_sub_id).setTarget
        target_id target_sub_id).setMessageType message_type
      match (container_data.getKey "values").bind Json.asArr with
      | none => .ok c0
      | some values_array => addV2Values c0 values_array

/-- The C1 container: one bytes value with payload `Hello`. -/
def c1Container : Container :=
  (Container.new.addValueState ⟨1, .bytesV "data" [72, 101, 108, 108, 111]⟩).1

/-- Its single value as rendered by `value_to_v2_dict`. -/
def c1Dict : Json := valueToV2Dict (.bytesV "data" [72, 101, 108, 108, 111])

/-- What the round trip returns for `c1Container`. -/
def c1Result : Container :=
  { Container.new with
      values := [⟨0, .stringV "data" "SGVsbG8="⟩],
      valueMap := [("data", [⟨0, .stringV "data" "SGVsbG8="⟩])] }

/-- **C1.** The claimed round trip -- `from_v2_json` after `to_v2_json`
reproduces every value's name, `value_type` and payload -- fails on the
program: `ValueType` declares `Bytes = 12` / `String = 13`, while
`v2_dict_to_value`'s numeric map reads 12 as String and 13 as Bytes, so the
bytes value of `c1Container` comes back as a *string* value holding its
base64 text: the header survives, the value kind and payload do not. -/
theorem C1_v2_roundtrip_changes_bytes_to_string :
    c1Container.values.map (fun a => a.val.valueType) = [.bytes] ∧
    fromV2Json (toV2Json c1Container) = .ok c1Result ∧
    c1Result.message_type = c1Container.message_type ∧
    c1Result.values.map VArc.val = [.stringV "data" "SGVsbG8="] ∧
    c1Result.values.map (fun a => a.val.valueType) = [.string] ∧
    ValueType.string ≠ ValueType.bytes := by
  have hv : v2DictToValue c1Dict = some (.stringV "data" "SGVsbG8=") := by
    rw [v2DictToValue.eq_def]
    rfl
  have h0 : fromV2Json (toV2Json c1Container) =
      addV2Values Container.new [c1Dict] := rfl
  refine ⟨rfl, ?_, rfl, rfl, rfl, by decide⟩
  rw [h0]
  simp only [addV2Values, hv]
  rfl

/-- The `{:?}` (Debug) rendering of `ValueType`: the bare variant names. -/
def ValueType.debugName : ValueType → String
  | .null => "Null" | .bool => "Bool" | .short => "Short" | .ushort => "UShort"
  | .int => "Int" | .uint => "UInt" | .long => "Long" | .ulong => "ULong"
  | .llong => "LLong" | .ullong => "ULLong" | .float => "Float"
  | .double => "Double" | .bytes => "Bytes" | .string => "String"
  | .container => "Container" | .array => "Array"

/-- One entry of the values loop of `ValueContainer::from_json`: missing
`name` or `type` is a typed error, the type code string goes through
`ValueType::from_type_code`, the payload is `value_obj["value"]["value"]`,
and each arm validates its payload with a typed error.  Two remarks on the
source text: the Long|LLong arm wraps the fallible `LongValue::new` directly
in `Arc::new` without unwrapping (container.rs:689) and the ULong|ULLong arm
does the same with `ULongValue::new`, modelled here as propagating the
construction result; and the match has no `Array` arm at all, modelled as the
same unsupported-type error the `Null | Container` arm returns.  The float
arms and the display tails that Rust appends from underlying error values
(the `: {e}` parts) are outside this embedding. -/
def parseJsonEntry (value_obj : Json) : Except ContainerErr Val :=
  match (value_obj.index "name").asStr with
  | none => .error (.invalidDataFormat "Missing \x27name\x27 field in value")
  | some name =>
  match (value_obj.index "type").asStr with
  | none => .error (.invalidDataFormat "Missing \x27type\x27 field in value")
  | some value_type_str =>
  match ValueType.fromTypeCode value_type_str with
  | none => .error (.invalidDataFormat
      ("Unknown value type code: \x27" ++ value_type_str ++ "\x27"))
  | some value_type =>
  let value_data := ((value_obj.index "value").index "value")
  match value_type with
  | .bool =>
    match value_data.asBool with
    | none => .error (.invalidDataFormat
        ("Invalid bool value for \x27" ++ name ++ "\x27"))
    | some b => .ok (.boolV name b)
  | .short =>
    match value_data.asI64 with
    | none => .error (.invalidDataFormat
        ("Invalid short value for \x27" ++ name ++ "\x27"))
    | some x => .ok (.shortV name (intCast 16 x))
  | .ushort =>
    match value_data.asU64 with
    | none => .error (.invalidDataFormat
        ("Invalid ushort value for \x27" ++ name ++ "\x27"))
    | some x => .ok (.ushortV name (x % 65536))
  | .int =>
    match value_data.asI64 with
    | none => .error (.invalidDataFormat
        ("Invalid int value for \x27" ++ name ++ "\x27"))
    | some x => .ok (.intV name (intCast 32 x))
  | .uint =>
    match value_data.asU64 with
    | none => .error (.invalidDataFormat
        ("Invalid uint value for \x27" ++ name ++ "\x27"))
    | some x => .ok (.uintV name (x % 4294967296))
  | .long | .llong =>
    match value_data.asI64 with
    | none => .error (.invalidDataFormat
        ("Invalid long value for \x27" ++ name ++ "\x27"))
    | some x => LongValue.new name x
  | .ulong | .ullong =>
    match value_data.asU64 with
    | none => .error (.invalidDataFormat
        ("Invalid ulong value for \x27" ++ name ++ "\x27"))
    | some x => ULongValue.new name x
  | .float | .double =>
    .error (.serializationError "float kinds outside this embedding")
  | .string =>
    match value_data.asStr with
    | none => .error (.invalidDataFormat
        ("Invalid string value for \x27" ++ name ++ "\x27"))
    | some s => .ok (.stringV name s)
  | .bytes =>
    match value_data.asStr with
    | none => .error (.invalidDataFormat
        ("Invalid bytes value for \x27" ++ name ++ "\x27"))
    | some b64 =>
      match base64Decode b64 with
      | none => .error (.invalidDataFormat
          ("Failed to decode base64 for \x27" ++ name ++ "\x27"))
      | some bytes => .ok (.bytesV name bytes)
  | .null | .container | .array =>
    .error (.invalidDataFormat
      ("Unsupported value type for deserialization: " ++ value_type.debugName))

/-- The values loop of `from_json`: each parsed value is added with `?`
propagation of both the parse error and the `add_value` error.  Fresh `Arc`
addresses are modelled as 0. -/
def fromJsonValuesLoop (c : Container) : List Json → Except ContainerErr Container
  | [] => .ok c
  | value_obj :: rest =>
    match parseJsonEntry value_obj with
    | .error e => .error e
    | .ok v =>
      match c.addValue ⟨0, v⟩ with
      | .error e => .error e
      | .ok c2 => fromJsonValuesLoop c2 rest

/-- `ValueContainer::from_json` from the parsed JSON tree on: tolerant header
defaults (`message_type` falling back to `data_container`, `version` to
`1.0.0.0` and written straight into the inner state), then the values loop. -/
def fromJson (json_value : Json) : Except ContainerErr Container :=
  let source_id := (json_value.index "source_id").asStr.getD ""
  let source_sub_id := (json_value.index "source_sub_id").asStr.getD ""
  let target_id := (json_value.index "target_id").asStr.getD ""
  let target_sub_id := (json_value.index "target_sub_id").asStr.getD ""
  let message_type := (json_value.index "message_type").asStr.getD "data_container"
  let version := (json_value.index "version").asStr.getD "1.0.0.0"
  let c0 := { ((Container.new.setSource source_id source_sub_id).setTarget
      target_id target_sub_id).setMessageType message_type with
        version := version }
  match (json_value.index "values").asArr with
  | none => .ok c0
  | some values_array => fromJsonValuesLoop c0 values_array

/-- A malformed v2 values entry: its `name` field is missing. -/
def c6BadEntry : Json :=
  .obj [("type", .num 4), ("type_name", .str "int"), ("data", .num 123)]

/-- A v2 document whose only values entry is the malformed `c6BadEntry`. -/
def c6Doc : Json :=
  .obj [("container", .obj [("version", .str "2.0"),
    ("values", .arr [c6BadEntry])])]

/-- A `from_json` document whose values entry is missing `name`. -/
def c6MissingNameDoc : Json :=
  .obj [("values", .arr [.obj [("type", .str "4"),
    ("value", .obj [("value", .num 123)])]])]

/-- A `from_json` document whose values entry is missing `type`. -/
def c6MissingTypeDoc : Json :=
  .obj [("values", .arr [.obj [("name", .str "x"),
    ("value", .obj [("value", .num 1)])]])]

/-- **C6** counterexample.  The claim says every parser returns a typed error
on a malformed values entry; but `from_v2_json` on a document whose only
entry lacks its `name` field returns `Ok` with the entry silently dropped
(zero values), because `v2_dict_to_value` signals failure as `None` and the
loop only adds `Some` results. -/
theorem C6_from_v2_json_silently_skips_malformed_entry :
    c6BadEntry.getKey "name" = none ∧
    fromV2Json c6Doc = .ok { Container.new with message_type := "" } ∧
    ({ Container.new with message_type := "" } : Container).values = [] := by
  have hv6 : v2DictToValue c6BadEntry = none := by
    rw [v2DictToValue.eq_def]
    rfl
  have h0 : fromV2Json c6Doc =
      addV2Values { Container.new with message_type := "" } [c6BadEntry] := rfl
  refine ⟨rfl, ?_, rfl⟩
  rw [h0]
  simp only [addV2Values, hv6]

/-- **C6** (amended).  `from_v2_json` silently skips any values entry that
`v2_dict_to_value` cannot parse instead of returning an error, while
`ValueContainer::from_json` does return the typed errors the claim describes
for an entry missing its `name` or its `type` field. -/
theorem C6_parser_error_handling_amended :
    (∀ (c : Container) (e : Json) (rest : List Json),
      v2DictToValue e = none → addV2Values c (e :: rest) = addV2Values c rest) ∧
    fromJson c6MissingNameDoc =
      .error (.invalidDataFormat "Missing \x27name\x27 field in value") ∧
    fromJson c6MissingTypeDoc =
      .error (.invalidDataFormat "Missing \x27type\x27 field in value") := by
  refine ⟨?_, rfl, rfl⟩
  intro c e rest he
  simp only [addV2Values, he]

/-- Witness for the amended C6: the skip equation applied to the concrete
malformed entry. -/
theorem C6_parser_error_handling_amended_witness :
    addV2Values Container.new [c6BadEntry] = addV2Values Container.new [] :=
  C6_parser_error_handling_amended.1 Container.new c6BadEntry []
    (by rw [v2DictToValue.eq_def]; rfl)

/-- The three ways a Rust call can come back: a value, an `Err`, or a panic
(here: an out-of-bounds index or slice). -/
inductive RustOutcome (α : Type) where
  | ok (a : α)
  | err (e : ContainerErr)
  | panicked

/-- `u32::from_le_bytes([data[i], data[i+1], data[i+2], data[i+3]])` by direct
indexing: `none` is the index-out-of-bounds panic. -/
def readU32At (data : List Nat) (i : Nat) : Option Nat :=
  match data[i]?, data[i+1]?, data[i+2]?, data[i+3]? with
  | some b0, some b1, some b2, some b3 =>
      some (b0 + 256 * b1 + 65536 * b2 + 16777216 * b3)
  | _, _, _, _ => none

/-- `i64::from_le_bytes` of eight directly indexed bytes, as the unsigned
bit pattern: `none` is the index panic. -/
def readU64At (data : List Nat) (i : Nat) : Option Nat :=
  match readU32At data i, readU32At data (i + 4) with
  | some lo, some hi => some (lo + 4294967296 * hi)
  | _, _ => none

/-- `&data[lo..hi]`: `none` is the slice-out-of-range panic. -/
def sliceGet (data : List Nat) (lo hi : Nat) : Option (List Nat) :=
  if lo ≤ hi ∧ hi ≤ data.length then some ((data.take hi).drop lo) else none

/-- The `u8 → ValueType` map local to `ArrayValue::deserialize_value` (again
sending 12 to String and 13 to Bytes, the reverse of the enum
discriminants). -/
def arrayValueTypeOfByte (b : Nat) : Option ValueType :=
  if b = 0 then some .null else if b = 1 then some .bool
  else if b = 2 then some .short else if b = 3 then some .ushort
  else if b = 4 then some .int else if b = 5 then some .uint
  else if b = 6 then some .long else if b = 7 then some .ulong
  else if b = 8 then some .llong else if b = 9 then some .ullong
  else if b = 10 then some .float else if b = 11 then some .double
  else if b = 12 then some .string else if b = 13 then some .bytes
  else if b = 14 then some .container else if b = 15 then some .array
  else none

/-- `ArrayValue::deserialize_value`: one element record, returning the value
and the bytes consumed.  Each length guard of the source checks only the
*minimum* record size; the name and payload reads then slice and index with
the *declared* lengths unchecked, so a declared length past the buffer is a
panic (`.panicked`), not an error.  The display tails Rust appends from
underlying error values are not modelled. -/
def deserializeValue (data : List Nat) : RustOutcome (Val × Nat) :=
  if data.length = 0 then
    .err (.invalidDataFormat "Empty data for value deserialization")
  else
  match data[0]? with
  | none => .panicked
  | some type_byte =>
  match arrayValueTypeOfByte type_byte with
  | none => .err (.invalidDataFormat ("Unknown value type: " ++ toString type_byte))
  | some type_id =>
  match type_id with
  | .int =>
    if data.length < 13 then
      .err (.invalidDataFormat "Insufficient data for IntValue")
    else
      match readU32At data 1 with
      | none => .panicked
      | some name_len =>
      match sliceGet data 5 (5 + name_len) with
      | none => .panicked
      | some name_bytes =>
      match utf8Decode name_bytes with
      | none => .err (.invalidDataFormat "Invalid UTF-8")
      | some name =>
      match readU32At data (9 + name_len) with
      | none => .panicked
      | some w => .ok (.intV name (signedOfPattern 32 w), 13 + name_len)
  | .long | .llong =>
    if data.length < 17 then
      .err (.invalidDataFormat "Insufficient data for LongValue")
    else
      match readU32At data 1 with
      | none => .panicked
      | some name_len =>
      match sliceGet data 5 (5 + name_len) with
      | none => .panicked
      | some name_bytes =>
      match utf8Decode name_bytes with
      | none => .err (.invalidDataFormat "Invalid UTF-8")
      | some name =>
      match readU64At data (9 + name_len) with
      | none => .panicked
      | some w =>
        match LongValue.new name (signedOfPattern 64 w) with
        | .error e => .err e
        | .ok v => .ok (v, 17 + name_len)
  | .string =>
    if data.length < 13 then
      .err (.invalidDataFormat "Insufficient data for StringValue")
    else
      match readU32At data 1 with
      | none => .panicked
      | some name_len =>
      match sliceGet data 5 (5 + name_len) with
      | none => .panicked
      | some name_bytes =>
      match utf8Decode name_bytes with
      | none => .err (.invalidDataFormat "Invalid UTF-8")
      | some name =>
      match readU32At data (5 + name_len) with
      | none => .panicked
      | some value_size =>
      match sliceGet data (9 + name_len) (9 + name_len + value_size) with
      | none => .panicked
      | some str_bytes =>
      match utf8Decode str_bytes with
      | none => .err (.invalidDataFormat "Invalid UTF-8 in string value")
      | some str_value =>
        .ok (.stringV name str_value, 9 + name_len + value_size)
  | _ =>
    .err (.invalidDataFormat
      ("Unsupported value type for deserialization: " ++ type_id.debugName))

/-- The element loop of `deserialize_binary` (`for i in 0..count` with early
returns): `remaining` counts the iterations still to run, `i` the iterations
done (for the error message). -/
def deserializeElems (data : List Nat) (count : Nat) :
    Nat → Nat → Nat → List Val → RustOutcome (List Val)
  | 0, _, _, acc => .ok acc
  | remaining + 1, i, offset, acc =>
    if offset ≥ data.length then
      .err (.invalidDataFormat ("Unexpected end of data while reading element " ++
        toString (i + 1) ++ "/" ++ toString count))
    else
      match deserializeValue (data.drop offset) with
      | .panicked => .panicked
      | .err e => .err e
      | .ok (element, bytes_read) =>
        deserializeElems data count remaining (i + 1) (offset + bytes_read)
          (acc ++ [element])

/-- `ArrayValue::deserialize_binary`: header parsing with explicit bounds
checks (this outer layer does validate), then the element loop through the
unchecked `deserialize_value`.  The `.panicked` arms after a passed guard are
unreachable and only discharge the option. -/
def deserializeBinary (data : List Nat) : RustOutcome Val :=
  if data.length < 13 then
    .err (.invalidDataFormat
      ("ArrayValue binary data too short: " ++ toString data.length ++ " bytes"))
  else
  match data[0]? with
  | none => .panicked
  | some type_id =>
  if type_id ≠ 15 then
    .err (.invalidDataFormat ("Expected ArrayValue type (15), got " ++
      toString type_id))
  else
  match readU32At data 1 with
  | none => .panicked
  | some name_len =>
  if 5 + name_len > data.length then
    .err (.invalidDataFormat ("Name length " ++ toString name_len ++
      " exceeds data bounds"))
  else
  match sliceGet data 5 (5 + name_len) with
  | none => .panicked
  | some name_bytes =>
  match utf8Decode name_bytes with
  | none => .err (.invalidDataFormat "Invalid UTF-8 in name")
  | some name =>
  if 5 + name_len + 4 > data.length then
    .err (.invalidDataFormat "Insufficient data for value_size")
  else
  if 9 + name_len + 4 > data.length then
    .err (.invalidDataFormat "Insufficient data for element count")
  else
  match readU32At data (9 + name_len) with
  | none => .panicked
  | some count =>
  match deserializeElems data count count 0 (13 + name_len) [] with
  | .panicked => .panicked
  | .err e => .err e
  | .ok elements => .ok (.arrayV name elements)

/-- The malformed element record of C7: type byte 4 (Int) and a declared name
length of 4294967295 in a 13-byte buffer -- it passes the minimum-size guard
of `deserialize_value`, whose name read then slices past the buffer. -/
def c7Elem : List Nat := [4, 255, 255, 255, 255, 0, 0, 0, 0, 0, 0, 0, 0]

/-- An array document with a well-formed header (type 15, empty name,
element count 1) whose one element record is `c7Elem`. -/
def c7Doc : List Nat := [15, 0, 0, 0, 0, 17, 0, 0, 0, 1, 0, 0, 0] ++ c7Elem

/-- **C7.** The claim -- binary deserialization validates declared lengths
against the remaining buffer and never panics -- fails on the program:
`deserialize_value` checks only the minimum record size and then slices with
the declared name length unchecked, so `c7Elem` panics (index out of range),
and `deserialize_binary` on `c7Doc` propagates that panic.  By contrast the
outer header parse does validate: the same oversized name length in the
array header itself yields the typed bounds error, which shows the panic is
specific to the per-element helper. -/
theorem C7_deserialize_value_panics_on_oversized_length :
    deserializeValue c7Elem = .panicked ∧
    deserializeBinary c7Doc = .panicked ∧
    deserializeBinary [15, 255, 255, 255, 255, 0, 0, 0, 0, 0, 0, 0, 0] =
      .err (.invalidDataFormat "Name length 4294967295 exceeds data bounds") := by
  refine ⟨rfl, rfl, rfl⟩

set_option maxHeartbeats 1000000 in
/-- Witness for C8: both omission hypotheses discharged at concrete
containers -- `Container.new` carries the `data_container` sentinel, and
`exampleWireRoutingless` has all four routing fields empty. -/
theorem C8_wire_routing_omission_and_example_witness :
    serializeCppWireHeader Container.new = headerNoRouting Container.new ∧
    serializeCppWireHeader exampleWireRoutingless =
      headerNoRouting exampleWireRoutingless :=
  ⟨(C8_wire_routing_omission_and_example Container.new).1 rfl,
   (C8_wire_routing_omission_and_example exampleWireRoutingless).2.1
     ⟨rfl, rfl, rfl, rfl⟩⟩
